import Mathlib

/-!
Shallow embedding of the recruitment-crm repository (Python/Streamlit/SQLite).

The relational store is modelled as in-memory lists of rows; every SQL
statement issued by the code is translated into an executable Lean function
over those lists, following the semantics SQLite gives it under the exact
connection settings the code uses (`db_manager.get_connection` opens plain
`sqlite3` connections and never issues `PRAGMA foreign_keys = ON`, so
foreign-key actions declared in the schema are not enforced).

Timestamps are modelled as integers (seconds); `DATE(...)` truncates a
timestamp to day granularity.  `ORDER BY` is modelled with the stable
`List.insertionSort`; Python's stable `list.sort` is modelled the same way.
Rational numbers stand in for Python's float division in the leaderboard
rates.  bcrypt is out of scope (the spec treats it as a black-box one-way
function), so `Authenticator.login` is parametrised by an arbitrary
verification function.
-/

namespace RecruitCRM

/-! ### Constants (`utils/constants.py`, `config.py`) -/

def ROLE_ADMIN : String := "admin"

def ROLE_RECRUITER : String := "recruiter"

def ROLE_VIEWER : String := "viewer"

def SESSION_TIMEOUT_HOURS : Int := 24

/-! ### SQLite string helpers -/

/-- Does the character list `hay` start with `pat`? -/
def startsWithChars : List Char → List Char → Bool
  | _, [] => true
  | [], _ :: _ => false
  | a :: hs, b :: ps => a == b && startsWithChars hs ps

/-- Does the character list `hay` contain `pat` as a contiguous run? -/
def containsChars : List Char → List Char → Bool
  | [], ps => ps.isEmpty
  | h :: hs, ps => startsWithChars (h :: hs) ps || containsChars hs ps

/-- SQLite `field LIKE '%pat%'`: ASCII case-insensitive substring test;
a NULL field never matches (`NULL LIKE x` is NULL, which is not satisfied). -/
def sqlLike (field : Option String) (pat : String) : Bool :=
  match field with
  | none => false
  | some s => containsChars s.toLower.data pat.toLower.data

/-- SQLite `DATE(t)`: truncate a timestamp (seconds) to day granularity. -/
def sqlDate (t : Int) : Int := t / 86400

/-- `db.get_one`: first row of a result set, if any. -/
def get_one {α : Type} (l : List α) : Option α := l.head?

/-! ### Rows (`database/schema.py`) -/

/-- A row of the `users` table.  `username`, `email`, `password_hash`,
`full_name`, `role` are NOT NULL in the schema, hence plain `String`. -/
structure UserRow where
  id : Nat
  username : String
  email : String
  password_hash : String
  full_name : String
  role : String
  is_active : Bool
  created_at : Int
  updated_at : Int
deriving Repr, DecidableEq

/-- A user record as returned across the model boundary: the Python code
returns `dict(row)` and then `del user_dict['password_hash']`; the field
`password_hash = none` models the deleted dictionary key. -/
structure UserRec where
  id : Nat
  username : String
  email : String
  password_hash : Option String
  full_name : String
  role : String
  is_active : Bool
  created_at : Int
  updated_at : Int
deriving Repr, DecidableEq

/-- `user_dict = dict(user); del user_dict['password_hash']` -/
def stripHash (u : UserRow) : UserRec :=
  { id := u.id, username := u.username, email := u.email, password_hash := none,
    full_name := u.full_name, role := u.role, is_active := u.is_active,
    created_at := u.created_at, updated_at := u.updated_at }

/-- A row of the `candidates` table.  `first_name`, `last_name`, `email` and
`status` are NOT NULL (SQLite enforces NOT NULL and CHECK constraints
regardless of the `foreign_keys` pragma); the remaining columns are nullable. -/
structure Candidate where
  id : Nat
  first_name : String
  last_name : String
  email : String
  phone : Option String
  location : Option String
  linkedin_url : Option String
  current_role : Option String
  current_company : Option String
  years_of_experience : Option Int
  skills : Option String
  education : Option String
  status : String
  position_applied : Option String
  recruiter_id : Option Nat
  source : Option String
  salary_expectation : Option String
  notice_period : Option String
  resume_url : Option String
  notes : Option String
  created_by : Option Nat
  created_at : Int
  updated_at : Int
deriving Repr, DecidableEq

/-- A row of the `call_history` table (an interaction). -/
structure CallRow where
  id : Nat
  candidate_id : Nat
  recruiter_id : Nat
  call_date : Int
  call_type : Option String
  duration : Option Int
  outcome : Option String
  notes : Option String
  next_action : Option String
  next_action_date : Option Int
deriving Repr, DecidableEq

/-- The relational store. -/
structure DB where
  users : List UserRow
  candidates : List Candidate
  call_history : List CallRow
deriving Repr, DecidableEq

/-! ### Ordering helpers -/

/-- `ORDER BY c.created_at DESC`. -/
def orderByCreatedDesc (l : List Candidate) : List Candidate :=
  l.insertionSort (fun a b => b.created_at ≤ a.created_at)

/-- `ORDER BY created_at DESC` on user rows. -/
def orderUsersByCreatedDesc (l : List UserRow) : List UserRow :=
  l.insertionSort (fun a b => b.created_at ≤ a.created_at)

/-- `ORDER BY full_name` on user rows (SQLite BINARY collation agrees with
codepoint order on UTF-8 text). -/
def orderUsersByFullName (l : List UserRow) : List UserRow :=
  l.insertionSort (fun a b => a.full_name ≤ b.full_name)

/-- `ORDER BY count DESC` on grouped rows. -/
def orderByCountDesc {α : Type} (l : List (α × Nat)) : List (α × Nat) :=
  l.insertionSort (fun a b => b.2 ≤ a.2)

/-! ### Search filters (`models/candidate.py`, `CandidateModel.search`)

The `filters` argument is a Python dict; each supported key is modelled as an
`Option` field (`none` = key absent).  The source activates a clause with
`if filters.get(key):`, i.e. Python truthiness: a missing key, `None`, an
empty string, an empty list and the integer `0` all deactivate the clause
(except `min_experience`/`max_experience`, which use `is not None`). -/

/-- The `status` key holds either a single status string or a list. -/
inductive StatusFilter where
  | single (s : String)
  | multi (l : List String)
deriving Repr, DecidableEq

structure SearchFilters where
  search_text : Option String
  status : Option StatusFilter
  min_experience : Option Int
  max_experience : Option Int
  location : Option String
  recruiter_id : Option (Option Nat)
  source : Option String
  position : Option String
  start_date : Option Int
  end_date : Option Int
deriving Repr, DecidableEq

/-- `search({})`: no keys supplied. -/
def emptyFilters : SearchFilters :=
  ⟨none, none, none, none, none, none, none, none, none, none⟩

/-- `search({'recruiter_id': rid})` for an integer `rid`. -/
def recruiterFilter (rid : Nat) : SearchFilters :=
  ⟨none, none, none, none, none, some (some rid), none, none, none, none⟩

/-- Clause `(first_name LIKE ? OR last_name LIKE ? OR email LIKE ? OR skills LIKE ?)`,
active when `filters.get('search_text')` is truthy (present and non-empty). -/
def matchesSearchText (f : SearchFilters) (c : Candidate) : Bool :=
  match f.search_text with
  | none => true
  | some t =>
    if t.isEmpty then true
    else
      sqlLike (some c.first_name) t || sqlLike (some c.last_name) t ||
        sqlLike (some c.email) t || sqlLike c.skills t

/-- Clause `status IN (...)` for a list value, `status = ?` for a single value. -/
def matchesStatus (f : SearchFilters) (c : Candidate) : Bool :=
  match f.status with
  | none => true
  | some (.single s) => if s.isEmpty then true else c.status == s
  | some (.multi l) => if l.isEmpty then true else l.contains c.status

/-- Clause `years_of_experience >= ?` (NULL experience never satisfies it);
active when the key is present (`is not None` in the source). -/
def matchesMinExp (f : SearchFilters) (c : Candidate) : Bool :=
  match f.min_experience with
  | none => true
  | some m =>
    match c.years_of_experience with
    | none => false
    | some y => decide (m ≤ y)

/-- Clause `years_of_experience <= ?`. -/
def matchesMaxExp (f : SearchFilters) (c : Candidate) : Bool :=
  match f.max_experience with
  | none => true
  | some m =>
    match c.years_of_experience with
    | none => false
    | some y => decide (y ≤ m)

/-- Clause `location LIKE '%..%'`. -/
def matchesLocation (f : SearchFilters) (c : Candidate) : Bool :=
  match f.location with
  | none => true
  | some t => if t.isEmpty then true else sqlLike c.location t

/-- Clause `recruiter_id = ?`.  The source guards it with
`if filters.get('recruiter_id'):`, so a key that is absent, holds `None`, or
holds `0` adds no clause at all. -/
def matchesRecruiter (f : SearchFilters) (c : Candidate) : Bool :=
  match f.recruiter_id with
  | some (some rid) => if rid == 0 then true else c.recruiter_id == some rid
  | _ => true

/-- Clause `source = ?` (NULL source never satisfies it). -/
def matchesSource (f : SearchFilters) (c : Candidate) : Bool :=
  match f.source with
  | none => true
  | some s => if s.isEmpty then true else c.source == some s

/-- Clause `position_applied LIKE '%..%'`. -/
def matchesPosition (f : SearchFilters) (c : Candidate) : Bool :=
  match f.position with
  | none => true
  | some t => if t.isEmpty then true else sqlLike c.position_applied t

/-- Clause `DATE(created_at) >= ?` (a Python `date` object is always truthy). -/
def matchesStartDate (f : SearchFilters) (c : Candidate) : Bool :=
  match f.start_date with
  | none => true
  | some d => decide (d ≤ sqlDate c.created_at)

/-- Clause `DATE(created_at) <= ?`. -/
def matchesEndDate (f : SearchFilters) (c : Candidate) : Bool :=
  match f.end_date with
  | none => true
  | some d => decide (sqlDate c.created_at ≤ d)

/-- Conjunction of the active clauses, in the order the source appends them
to `WHERE 1=1`. -/
def candidateMatches (f : SearchFilters) (c : Candidate) : Bool :=
  matchesSearchText f c && matchesStatus f c && matchesMinExp f c &&
    matchesMaxExp f c && matchesLocation f c && matchesRecruiter f c &&
    matchesSource f c && matchesPosition f c && matchesStartDate f c &&
    matchesEndDate f c

/-! ### Candidate repository (`models/candidate.py`) -/

/-- The `data` dict passed to `CandidateModel.update` (a full replace).
Columns that are NOT NULL in the schema are required: an UPDATE writing NULL
into them would be rejected by SQLite, and the UI always supplies them. -/
structure UpdateData where
  first_name : String
  last_name : String
  email : String
  phone : Option String
  location : Option String
  linkedin_url : Option String
  current_role : Option String
  current_company : Option String
  years_of_experience : Option Int
  skills : Option String
  education : Option String
  status : String
  position_applied : Option String
  recruiter_id : Option Nat
  source : Option String
  salary_expectation : Option String
  notice_period : Option String
  resume_url : Option String
  notes : Option String
deriving Repr, DecidableEq

/-- The SET list of `CandidateModel.update`: every data column is replaced and
`updated_at = CURRENT_TIMESTAMP`; `id`, `created_by`, `created_at` are untouched. -/
def applyUpdate (d : UpdateData) (now : Int) (c : Candidate) : Candidate :=
  { c with
    first_name := d.first_name, last_name := d.last_name, email := d.email,
    phone := d.phone, location := d.location, linkedin_url := d.linkedin_url,
    current_role := d.current_role, current_company := d.current_company,
    years_of_experience := d.years_of_experience, skills := d.skills,
    education := d.education, status := d.status,
    position_applied := d.position_applied, recruiter_id := d.recruiter_id,
    source := d.source, salary_expectation := d.salary_expectation,
    notice_period := d.notice_period, resume_url := d.resume_url,
    notes := d.notes, updated_at := now }

namespace CandidateModel

/-- `CandidateModel.search(filters)`: `SELECT ... WHERE 1=1 AND <active clauses>
ORDER BY c.created_at DESC`. -/
def search (cs : List Candidate) (f : SearchFilters) : List Candidate :=
  orderByCreatedDesc (cs.filter (candidateMatches f))

/-- `CandidateModel.get_all(limit, offset)`: the `LIMIT/OFFSET` clause is added
only when `limit` is truthy (neither `None` nor `0`). -/
def get_all (cs : List Candidate) (limit : Option Nat) (offset : Nat) : List Candidate :=
  match limit with
  | none => orderByCreatedDesc cs
  | some n =>
    if n == 0 then orderByCreatedDesc cs
    else ((orderByCreatedDesc cs).drop offset).take n

/-- `CandidateModel.update(candidate_id, data)`: a single UPDATE keyed on `id`;
the method returns `True` whether or not any row matched. -/
def update (cs : List Candidate) (cid : Nat) (d : UpdateData) (now : Int) :
    List Candidate × Bool :=
  (cs.map (fun c => if c.id == cid then applyUpdate d now c else c), true)

/-- `CandidateModel.update_status(candidate_id, new_status)`. -/
def update_status (cs : List Candidate) (cid : Nat) (st : String) (now : Int) :
    List Candidate × Bool :=
  (cs.map (fun c => if c.id == cid then { c with status := st, updated_at := now } else c),
    true)

/-- `CandidateModel.delete(candidate_id)`: `DELETE FROM candidates WHERE id = ?`.
Because `get_connection` never issues `PRAGMA foreign_keys = ON`, the
`ON DELETE CASCADE` declared on `call_history.candidate_id` is not enforced:
only the candidate row is removed and `call_history` is untouched.
The method returns `True` whether or not any row matched. -/
def delete (db : DB) (cid : Nat) : DB × Bool :=
  ({ db with candidates := db.candidates.filter (fun c => c.id != cid) }, true)

/-- Result record of `CandidateModel.get_statistics`. -/
structure Statistics where
  total : Nat
  by_status : List (String × Nat)
  by_source : List (String × Nat)
  by_recruiter : List (Option String × Nat)
  recent : Nat
deriving Repr, DecidableEq

/-- `LEFT JOIN users u ON c.recruiter_id = u.id`, projected to `u.full_name`. -/
def joinedRecruiterName (us : List UserRow) (c : Candidate) : Option String :=
  match c.recruiter_id with
  | none => none
  | some rid =>
    match us.find? (fun u => u.id == rid) with
    | none => none
    | some u => some u.full_name

/-- `CandidateModel.get_statistics()`: total row count, `GROUP BY status`,
`GROUP BY source` (non-NULL, count descending), `GROUP BY u.full_name` over
candidates with a recruiter (count descending), and the count of candidates
created in the trailing 7 days.  `today` is the current date (day number). -/
def get_statistics (db : DB) (today : Int) : Statistics :=
  let cs := db.candidates
  { total := cs.length
  , by_status :=
      ((cs.map (fun c => c.status)).dedup).map
        (fun s => (s, cs.countP (fun c => c.status == s)))
  , by_source :=
      orderByCountDesc (((cs.filterMap (fun c => c.source)).dedup).map
        (fun s => (s, cs.countP (fun c => c.source == some s))))
  , by_recruiter :=
      let withRec := cs.filter (fun c => c.recruiter_id.isSome)
      orderByCountDesc (((withRec.map (joinedRecruiterName db.users)).dedup).map
        (fun n => (n, withRec.countP (fun c => joinedRecruiterName db.users c == n))))
  , recent := (cs.filter (fun c => decide (today - 7 ≤ sqlDate c.created_at))).length }

end CandidateModel

/-! ### Authenticator (`auth/authenticator.py`) -/

namespace Authenticator

/-- `Authenticator.login(username, password)`:
`SELECT * FROM users WHERE username = ? AND is_active = TRUE`, then bcrypt
verification, then the hash field is deleted from the returned dict.
`verify` is the black-box `verify_password(password, password_hash)`. -/
def login (verify : String → String → Bool) (us : List UserRow)
    (username password : String) : Option UserRec :=
  match get_one (us.filter (fun u => u.username == username && u.is_active)) with
  | none => none
  | some u => if verify password u.password_hash then some (stripHash u) else none

/-- The static `permissions` dict of `Authenticator.check_permission`;
`.get(role, [])` yields the empty list for an unknown role. -/
def permissionsFor (role : String) : List String :=
  if role == ROLE_ADMIN then ["create", "edit", "delete", "view", "manage_users", "export"]
  else if role == ROLE_RECRUITER then ["create", "edit", "delete", "view", "export"]
  else if role == ROLE_VIEWER then ["view", "export"]
  else []

/-- `Authenticator.check_permission(role, action)`: `action in permissions.get(role, [])`. -/
def check_permission (role action : String) : Bool :=
  (permissionsFor role).contains action

end Authenticator

/-! ### User repository (`models/user.py`) -/

namespace UserModel

/-- `UserModel.get_by_id`: lookup by id, then strip the hash. -/
def get_by_id (us : List UserRow) (uid : Nat) : Option UserRec :=
  (get_one (us.filter (fun u => u.id == uid))).map stripHash

/-- `UserModel.get_by_username`. -/
def get_by_username (us : List UserRow) (name : String) : Option UserRec :=
  (get_one (us.filter (fun u => u.username == name))).map stripHash

/-- `UserModel.get_all(include_inactive)`: `ORDER BY created_at DESC`,
optionally restricted to active users; hashes stripped. -/
def get_all (us : List UserRow) (include_inactive : Bool) : List UserRec :=
  (orderUsersByCreatedDesc
      (if include_inactive then us else us.filter (fun u => u.is_active))).map stripHash

/-- `UserModel.get_by_role(role)`: active users with the role, `ORDER BY full_name`. -/
def get_by_role (us : List UserRow) (role : String) : List UserRec :=
  (orderUsersByFullName (us.filter (fun u => u.role == role && u.is_active))).map stripHash

/-- `UserModel.get_recruiters()`: active users whose role is `recruiter` or
`admin`, `ORDER BY full_name`; hashes stripped. -/
def get_recruiters (us : List UserRow) : List UserRec :=
  (orderUsersByFullName
      (us.filter (fun u => (u.role == "recruiter" || u.role == "admin") && u.is_active))).map
    stripHash

/-- `UserModel.delete(user_id)`: `DELETE FROM users WHERE id = ?`.  No
foreign-key action is declared from `candidates.recruiter_id` to `users` (and
enforcement is off anyway), so candidates keep their `recruiter_id` value. -/
def delete (db : DB) (uid : Nat) : DB × Bool :=
  ({ db with users := db.users.filter (fun u => u.id != uid) }, true)

end UserModel

/-! ### Session holder (`auth/session_manager.py`)

`st.session_state` is modelled as an explicit state record; wall-clock time is
an explicit `now : Int` parameter (seconds), so `timedelta(hours=h)`
corresponds to `h * 3600`. -/

structure SessionState where
  authenticated : Bool
  user : Option UserRec
  login_time : Option Int
deriving Repr, DecidableEq

namespace SessionManager

/-- `SessionManager.is_authenticated()`. -/
def is_authenticated (s : SessionState) : Bool := s.authenticated

/-- `SessionManager.set_current_user(user)` at wall-clock time `now`. -/
def set_current_user (u : UserRec) (now : Int) (_s : SessionState) : SessionState :=
  { authenticated := true, user := some u, login_time := some now }

/-- `SessionManager.clear_session()` (logout / forced expiry). -/
def clear_session (_s : SessionState) : SessionState :=
  { authenticated := false, user := none, login_time := none }

/-- `SessionManager.check_session_timeout()`: a falsy `login_time` is a no-op;
otherwise the session is cleared exactly when
`now - login_time > timedelta(hours=SESSION_TIMEOUT_HOURS)` (strictly). -/
def check_session_timeout (now : Int) (s : SessionState) : Bool × SessionState :=
  match s.login_time with
  | none => (false, s)
  | some t =>
    if SESSION_TIMEOUT_HOURS * 3600 < now - t then (true, clear_session s)
    else (false, s)

end SessionManager

/-! ### Recruiter leaderboard (`pages/1_Dashboard.py`) -/

structure LeaderboardEntry where
  recruiter : String
  total : Nat
  hired : Nat
  interview : Nat
  offer : Nat
  rejected : Nat
  success_rate : ℚ
  conversion_rate : ℚ
deriving Repr, DecidableEq

/-- One iteration of the dashboard loop: `search({'recruiter_id': r.id})`,
status counts, and the two rates (float division modelled over `ℚ`). -/
def leaderboardEntry (cs : List Candidate) (r : UserRec) : LeaderboardEntry :=
  let recruiter_candidates := CandidateModel.search cs (recruiterFilter r.id)
  let total := recruiter_candidates.length
  let hired := (recruiter_candidates.filter (fun c => c.status == "Hired")).length
  let interview := (recruiter_candidates.filter (fun c => c.status == "Interview")).length
  let offer := (recruiter_candidates.filter (fun c => c.status == "Offer")).length
  let rejected := (recruiter_candidates.filter (fun c => c.status == "Rejected")).length
  let success_rate : ℚ := if 0 < total then (hired : ℚ) / (total : ℚ) * 100 else 0
  let conversion_count := interview + offer + hired
  let conversion_rate : ℚ :=
    if 0 < total then (conversion_count : ℚ) / (total : ℚ) * 100 else 0
  ⟨r.full_name, total, hired, interview, offer, rejected, success_rate, conversion_rate⟩

/-- The sort key relation of
`leaderboard_data.sort(key=lambda x: (x['success_rate'], x['total']), reverse=True)`:
descending lexicographic on `(success_rate, total)`; a stable sort with this
"greater or equivalent" relation reproduces Python's stable reverse sort. -/
def leaderboardGE (a b : LeaderboardEntry) : Prop :=
  b.success_rate < a.success_rate ∨
    (a.success_rate = b.success_rate ∧ b.total ≤ a.total)

instance : DecidableRel leaderboardGE := fun a b =>
  inferInstanceAs (Decidable (b.success_rate < a.success_rate ∨
    (a.success_rate = b.success_rate ∧ b.total ≤ a.total)))

/-- `leaderboard_data` as computed by the Dashboard page: one entry per active
recruiter (in `get_recruiters()` order), then the stable descending sort. -/
def leaderboard_data (db : DB) : List LeaderboardEntry :=
  ((UserModel.get_recruiters db.users).map (leaderboardEntry db.candidates)).insertionSort
    leaderboardGE

instance : IsTotal LeaderboardEntry leaderboardGE where
  total a b := by
    unfold leaderboardGE
    rcases lt_trichotomy a.success_rate b.success_rate with h | h | h
    · exact Or.inr (Or.inl h)
    · rcases Nat.le_total b.total a.total with ht | ht
      · exact Or.inl (Or.inr ⟨h, ht⟩)
      · exact Or.inr (Or.inr ⟨h.symm, ht⟩)
    · exact Or.inl (Or.inl h)

instance : IsTrans LeaderboardEntry leaderboardGE where
  trans a b c hab hbc := by
    unfold leaderboardGE at *
    rcases hab with h1 | ⟨h1, h1t⟩ <;> rcases hbc with h2 | ⟨h2, h2t⟩
    · exact Or.inl (h2.trans h1)
    · exact Or.inl (h2 ▸ h1)
    · exact Or.inl (h1 ▸ h2)
    · exact Or.inr ⟨h1.trans h2, h2t.trans h1t⟩

/-! ### Concrete stores used by witnesses and counterexamples -/

/-- A candidate assigned to recruiter 7. -/
def cAssigned : Candidate :=
  ⟨1, "Alice", "Smith", "alice@example.com", none, none, none, none, none,
    some 5, none, none, "Applied", none, some 7, none, none, none, none, none,
    some 7, 200000, 200000⟩

/-- A candidate with no assigned recruiter (`recruiter_id IS NULL`). -/
def cUnassigned : Candidate :=
  ⟨2, "Bob", "Jones", "bob@example.com", none, none, none, none, none,
    some 3, none, none, "Hired", none, none, none, none, none, none, none,
    some 7, 100000, 100000⟩

/-- An active recruiter. -/
def uCarol : UserRow :=
  ⟨7, "carol", "carol@example.com", "bcrypt-hash-7", "Carol R", "recruiter",
    true, 0, 0⟩

/-- An interaction logged against candidate 1 by recruiter 7. -/
def callOnCand1 : CallRow :=
  ⟨1, 1, 7, 150000, some "Phone", some 30, some "Interested", none, none, none⟩

/-- A small store: one recruiter, two candidates, one interaction. -/
def exDB : DB := ⟨[uCarol], [cAssigned, cUnassigned], [callOnCand1]⟩

/-- A full-replace payload for `CandidateModel.update`. -/
def exUpdateData : UpdateData :=
  ⟨"Alice", "Smith", "alice@example.com", none, none, none, none, none,
    some 6, none, none, "Screening", none, some 7, none, none, none, none, none⟩

/-- An anonymous session. -/
def anonState : SessionState := ⟨false, none, none⟩

/-- `search({'recruiter_id': None})`: the key is present, its value is `None`. -/
def recruiterNoneFilter : SearchFilters :=
  ⟨none, none, none, none, none, some none, none, none, none, none⟩

/-! ## Theorems -/

/-- C1: the spec requires `search({'recruiter_id': None})` to return exactly
the unassigned candidates, distinct from `search({})`.  The source guards the
clause with `if filters.get('recruiter_id'):`, and `None` is falsy, so the
clause is never added: the call returns all candidates — including
`cAssigned`, whose `recruiter_id` is not NULL — and is indistinguishable from
the empty filter set.  This contradicts the spec's explicit requirement that
the NULL case be a distinct queryable case. -/
theorem search_recruiter_none_is_ignored :
    CandidateModel.search exDB.candidates recruiterNoneFilter
        = CandidateModel.search exDB.candidates emptyFilters
      ∧ CandidateModel.search exDB.candidates recruiterNoneFilter
        = [cAssigned, cUnassigned]
      ∧ cAssigned.recruiter_id = some 7 ∧ cUnassigned.recruiter_id = none :=
  ⟨rfl, rfl, rfl, rfl⟩

/-- C4: the schema declares `ON DELETE CASCADE` from `call_history` to
`candidates`, but `get_connection` never issues `PRAGMA foreign_keys = ON`,
so SQLite leaves foreign-key enforcement (and with it the cascade) disabled:
deleting candidate 1 leaves the interaction that references it in place.
The second half of the claim holds: deleting user 7 does not touch the
candidates previously assigned to them, which keep the dangling reference. -/
theorem delete_candidate_no_cascade :
    (CandidateModel.delete exDB 1).1.candidates = [cUnassigned]
      ∧ (CandidateModel.delete exDB 1).1.call_history = [callOnCand1]
      ∧ callOnCand1.candidate_id = 1
      ∧ (UserModel.delete exDB 7).1.users = []
      ∧ (UserModel.delete exDB 7).1.candidates = [cAssigned, cUnassigned]
      ∧ cAssigned.recruiter_id = some 7 :=
  ⟨rfl, rfl, rfl, rfl, rfl, rfl⟩

/-- C2: `check_permission` is a pure function of `(role, action)` (it is a
Lean function of exactly those arguments); for each of the three known roles
it grants exactly the actions of the §4.1 table, and any other role is
granted nothing. -/
theorem check_permission_table :
    (∀ a, Authenticator.check_permission ROLE_ADMIN a = true ↔
        a ∈ ["create", "edit", "delete", "view", "export", "manage_users"])
      ∧ (∀ a, Authenticator.check_permission ROLE_RECRUITER a = true ↔
        a ∈ ["create", "edit", "delete", "view", "export"])
      ∧ (∀ a, Authenticator.check_permission ROLE_VIEWER a = true ↔
        a ∈ ["view", "export"])
      ∧ (∀ r a, r ≠ ROLE_ADMIN → r ≠ ROLE_RECRUITER → r ≠ ROLE_VIEWER →
        Authenticator.check_permission r a = false) := by
  refine ⟨?_, ?_, ?_, ?_⟩
  · intro a
    simp [Authenticator.check_permission, Authenticator.permissionsFor,
      ROLE_ADMIN]
    tauto
  · intro a
    simp [Authenticator.check_permission, Authenticator.permissionsFor,
      ROLE_ADMIN, ROLE_RECRUITER]
  · intro a
    simp [Authenticator.check_permission, Authenticator.permissionsFor,
      ROLE_ADMIN, ROLE_RECRUITER, ROLE_VIEWER]
  · intro r a h1 h2 h3
    simp only [ROLE_ADMIN] at h1
    simp only [ROLE_RECRUITER] at h2
    simp only [ROLE_VIEWER] at h3
    simp [Authenticator.check_permission, Authenticator.permissionsFor,
      ROLE_ADMIN, ROLE_RECRUITER, ROLE_VIEWER, h1, h2, h3]

/-- Witness for C2: a role outside the enum is granted nothing. -/
theorem check_permission_table_witness :
    Authenticator.check_permission "ghost" "view" = false :=
  check_permission_table.2.2.2 "ghost" "view" (by decide) (by decide) (by decide)

/-- C5: `search({})` activates no clause, so it is the identity filter
followed by the shared `ORDER BY created_at DESC`, which is exactly
`get_all()` with no limit. -/
theorem search_empty_eq_get_all (cs : List Candidate) :
    CandidateModel.search cs emptyFilters = CandidateModel.get_all cs none 0 := by
  show orderByCreatedDesc (cs.filter (candidateMatches emptyFilters))
      = orderByCreatedDesc cs
  have h : ∀ c ∈ cs, candidateMatches emptyFilters c = true := fun c _ => rfl
  rw [List.filter_eq_self.mpr h]

/-- If `get_one` of a filtered list yields a row, that row belongs to the
list and satisfies the filter predicate. -/
theorem get_one_filter_mem {α : Type} (p : α → Bool) (l : List α) (a : α)
    (h : get_one (l.filter p) = some a) : a ∈ l ∧ p a = true := by
  have hm : a ∈ l.filter p := by
    unfold get_one at h
    cases hf : l.filter p with
    | nil => rw [hf] at h; cases h
    | cons x xs =>
      rw [hf] at h
      simp only [List.head?_cons, Option.some.injEq] at h
      rw [← h]
      exact List.mem_cons_self x xs
  rcases List.mem_filter.mp hm with ⟨h1, h2⟩
  exact ⟨h1, h2⟩

/-- C3: `login` returns `none` when the username is unknown, when every row
with that username is inactive, and when the looked-up row's password does
not verify; whenever it returns a record, that record is the hash-stripped
image of a stored row that is active, carries the requested username, and
verifies the supplied password. -/
theorem login_spec (verify : String → String → Bool) (us : List UserRow)
    (name pw : String) :
    ((∀ u ∈ us, u.username ≠ name) → Authenticator.login verify us name pw = none)
      ∧ ((∀ u ∈ us, u.username = name → u.is_active = false) →
        Authenticator.login verify us name pw = none)
      ∧ ((∀ u ∈ us, u.username = name → u.is_active = true →
            verify pw u.password_hash = false) →
        Authenticator.login verify us name pw = none)
      ∧ (∀ d, Authenticator.login verify us name pw = some d →
        d.password_hash = none
          ∧ ∃ u ∈ us, u.username = name ∧ u.is_active = true
              ∧ verify pw u.password_hash = true ∧ d = stripHash u) := by
  refine ⟨?_, ?_, ?_, ?_⟩
  · intro h
    have hf : us.filter (fun u => u.username == name && u.is_active) = [] := by
      rw [List.filter_eq_nil_iff]
      intro u hu
      simp [h u hu]
    unfold Authenticator.login
    rw [hf]
    rfl
  · intro h
    have hf : us.filter (fun u => u.username == name && u.is_active) = [] := by
      rw [List.filter_eq_nil_iff]
      intro u hu
      by_cases hn : u.username = name
      · simp [hn, h u hu hn]
      · simp [hn]
    unfold Authenticator.login
    rw [hf]
    rfl
  · intro h
    unfold Authenticator.login
    cases hg : get_one (us.filter (fun u => u.username == name && u.is_active)) with
    | none => rfl
    | some u =>
      rcases get_one_filter_mem _ _ _ hg with ⟨hu, hp⟩
      simp only [Bool.and_eq_true, beq_iff_eq] at hp
      simp [h u hu hp.1 hp.2]
  · intro d hd
    unfold Authenticator.login at hd
    cases hg : get_one (us.filter (fun u => u.username == name && u.is_active)) with
    | none => rw [hg] at hd; simp at hd
    | some u =>
      rw [hg] at hd
      rcases get_one_filter_mem _ _ _ hg with ⟨hu, hp⟩
      simp only [Bool.and_eq_true, beq_iff_eq] at hp
      cases hv : verify pw u.password_hash with
      | false => simp [hv] at hd
      | true =>
        simp [hv] at hd
        subst hd
        exact ⟨rfl, u, hu, hp.1, hp.2, hv, rfl⟩

/-- Witness for C3: a lookup with an unknown username fails. -/
theorem login_spec_witness :
    Authenticator.login (fun p h => p == h) [uCarol] "nobody" "pw" = none :=
  (login_spec (fun p h => p == h) [uCarol] "nobody" "pw").1 (by decide)

/-- C9: every read operation of the user repository strips the
`password_hash` key from every record it returns. -/
theorem user_reads_strip_hash (us : List UserRow) :
    (∀ uid d, UserModel.get_by_id us uid = some d → d.password_hash = none)
      ∧ (∀ name d, UserModel.get_by_username us name = some d →
        d.password_hash = none)
      ∧ (∀ b d, d ∈ UserModel.get_all us b → d.password_hash = none)
      ∧ (∀ role d, d ∈ UserModel.get_by_role us role → d.password_hash = none)
      ∧ (∀ d, d ∈ UserModel.get_recruiters us → d.password_hash = none) := by
  refine ⟨?_, ?_, ?_, ?_, ?_⟩
  · intro uid d hd
    rcases Option.map_eq_some'.mp hd with ⟨u, _, hu⟩
    rw [← hu]; rfl
  · intro name d hd
    rcases Option.map_eq_some'.mp hd with ⟨u, _, hu⟩
    rw [← hu]; rfl
  · intro b d hd
    rcases List.mem_map.mp hd with ⟨u, _, hu⟩
    rw [← hu]; rfl
  · intro role d hd
    rcases List.mem_map.mp hd with ⟨u, _, hu⟩
    rw [← hu]; rfl
  · intro d hd
    rcases List.mem_map.mp hd with ⟨u, _, hu⟩
    rw [← hu]; rfl

/-- Witness for C9: the recruiter list of the concrete store exposes no hash. -/
theorem user_reads_strip_hash_witness : (stripHash uCarol).password_hash = none :=
  (user_reads_strip_hash [uCarol]).2.2.2.2 (stripHash uCarol) (by decide)

/-- Mapping `if p a then f a else a` over a list on which `p` never holds is
the identity. -/
theorem map_if_id {α : Type} (l : List α) (f : α → α) (p : α → Bool)
    (h : ∀ a ∈ l, p a = false) :
    l.map (fun a => if p a then f a else a) = l := by
  induction l with
  | nil => rfl
  | cons x xs ih =>
    have hx := h x (List.mem_cons_self x xs)
    simp [hx, ih (fun a ha => h a (List.mem_cons_of_mem x ha))]

/-- C10: when no stored candidate has the given id, `update`,
`update_status` and `delete` all leave the store unchanged and still report
success (`True`), exactly as the source does — a caller cannot distinguish
this from a real mutation. -/
theorem missing_id_mutations_succeed (db : DB) (cid : Nat) (d : UpdateData)
    (st : String) (now : Int) (h : ∀ c ∈ db.candidates, c.id ≠ cid) :
    CandidateModel.update db.candidates cid d now = (db.candidates, true)
      ∧ CandidateModel.update_status db.candidates cid st now = (db.candidates, true)
      ∧ CandidateModel.delete db cid = (db, true) := by
  have hid : ∀ c ∈ db.candidates, (c.id == cid) = false := by
    intro c hc
    simpa using h c hc
  refine ⟨?_, ?_, ?_⟩
  · unfold CandidateModel.update
    rw [map_if_id _ _ _ hid]
  · unfold CandidateModel.update_status
    rw [map_if_id _ _ _ hid]
  · unfold CandidateModel.delete
    have hfil : db.candidates.filter (fun c => c.id != cid) = db.candidates := by
      rw [List.filter_eq_self]
      intro c hc
      simpa using h c hc
    rw [hfil]

/-- Witness for C10: deleting the absent id 99 reports success and changes
nothing. -/
theorem missing_id_mutations_succeed_witness :
    CandidateModel.delete exDB 99 = (exDB, true) :=
  (missing_id_mutations_succeed exDB 99 exUpdateData "Hired" 0 (by decide)).2.2

/-- C8: starting from any session into which a user was logged in at time
`t0`, the timeout check at time `now` is a no-op answering `false` while the
elapsed time is within the 24-hour threshold; once the elapsed time strictly
exceeds it, the check answers `true`, clears the session, and
`is_authenticated` is `false` on the resulting state. -/
theorem session_timeout_spec (s0 : SessionState) (u : UserRec) (t0 now : Int) :
    (now - t0 ≤ SESSION_TIMEOUT_HOURS * 3600 →
      SessionManager.check_session_timeout now
          (SessionManager.set_current_user u t0 s0)
        = (false, SessionManager.set_current_user u t0 s0))
      ∧ (SESSION_TIMEOUT_HOURS * 3600 < now - t0 →
        SessionManager.check_session_timeout now
            (SessionManager.set_current_user u t0 s0)
          = (true, SessionManager.clear_session (SessionManager.set_current_user u t0 s0))
          ∧ SessionManager.is_authenticated
              (SessionManager.check_session_timeout now
                (SessionManager.set_current_user u t0 s0)).2 = false) := by
  constructor
  · intro h
    simp [SessionManager.check_session_timeout, SessionManager.set_current_user,
      not_lt.mpr h]
  · intro h
    refine ⟨?_, ?_⟩
    · simp [SessionManager.check_session_timeout, SessionManager.set_current_user,
        SessionManager.clear_session, h]
    · simp [SessionManager.check_session_timeout, SessionManager.set_current_user,
        SessionManager.clear_session, SessionManager.is_authenticated, h]

/-- Witness for C8: ten seconds after login the session is not expired. -/
theorem session_timeout_spec_witness :
    SessionManager.check_session_timeout 10
        (SessionManager.set_current_user (stripHash uCarol) 0 anonState)
      = (false, SessionManager.set_current_user (stripHash uCarol) 0 anonState) :=
  (session_timeout_spec anonState (stripHash uCarol) 0 10).1 (by decide)

/-- The `GROUP BY status` dict of `get_statistics`, in closed form. -/
theorem by_status_eq (db : DB) (today : Int) :
    (CandidateModel.get_statistics db today).by_status
      = ((db.candidates.map (fun c => c.status)).dedup).map
          (fun s => (s, db.candidates.countP (fun c => c.status == s))) := rfl

/-- Summing `countP (· == s)` over the deduplicated values of a list gives
its length. -/
theorem sum_countP_dedup {α : Type} [DecidableEq α] (l : List α) :
    ((l.dedup.map (fun s => l.countP (fun x => x == s))).sum) = l.length := by
  have h1 : l.dedup.map (fun s => l.countP (fun x => x == s))
      = l.dedup.map (fun x => l.count x) := by
    apply List.map_congr_left
    intro s _
    rw [List.count_eq_countP]
  rw [h1, List.sum_map_count_dedup_eq_length]

/-- C6: `get_statistics()['total']` is the length of `get_all()`; `by_status`
has an entry exactly for the status values that occur among the stored
candidates; and the `by_status` counts sum to `total`. -/
theorem get_statistics_spec (db : DB) (today : Int) :
    (CandidateModel.get_statistics db today).total
        = (CandidateModel.get_all db.candidates none 0).length
      ∧ (∀ s : String,
          (∃ n, (s, n) ∈ (CandidateModel.get_statistics db today).by_status)
            ↔ ∃ c ∈ db.candidates, c.status = s)
      ∧ ((CandidateModel.get_statistics db today).by_status.map (fun p => p.2)).sum
        = (CandidateModel.get_statistics db today).total := by
  refine ⟨?_, ?_, ?_⟩
  · show db.candidates.length = (orderByCreatedDesc db.candidates).length
    exact ((List.perm_insertionSort _ _).length_eq).symm
  · intro s
    rw [by_status_eq]
    constructor
    · rintro ⟨n, hn⟩
      rcases List.mem_map.mp hn with ⟨s2, hs2, heq⟩
      injection heq with h1 h2
      subst h1
      rcases List.mem_map.mp (List.mem_dedup.mp hs2) with ⟨c, hc, hcs⟩
      exact ⟨c, hc, hcs⟩
    · rintro ⟨c, hc, hcs⟩
      refine ⟨db.candidates.countP (fun c => c.status == s),
        List.mem_map.mpr ⟨s, ?_, rfl⟩⟩
      exact List.mem_dedup.mpr (List.mem_map.mpr ⟨c, hc, hcs⟩)
  · rw [by_status_eq, List.map_map]
    show ((db.candidates.map (fun c => c.status)).dedup.map
        (fun s => db.candidates.countP (fun c => c.status == s))).sum
      = db.candidates.length
    have h2 : ((db.candidates.map (fun c => c.status)).dedup.map
        (fun s => db.candidates.countP (fun c => c.status == s)))
        = ((db.candidates.map (fun c => c.status)).dedup.map
          (fun s => (db.candidates.map (fun c => c.status)).countP (fun x => x == s))) := by
      apply List.map_congr_left
      intro s _
      rw [List.countP_map]
      rfl
    rw [h2, sum_countP_dedup, List.length_map]

/-- C7: every leaderboard entry carries
`success_rate = hired / total * 100` and
`conversion_rate = (interview + offer + hired) / total * 100` (both `0` when
`total = 0`); the list is sorted by success rate descending with ties broken
by total descending; and the ranking is a deterministic function of the
store (identical inputs give the identical ranking). -/
theorem leaderboard_spec (db : DB) :
    (∀ e ∈ leaderboard_data db,
        e.success_rate
            = (if e.total = 0 then 0 else (e.hired : ℚ) / (e.total : ℚ) * 100)
          ∧ e.conversion_rate
            = (if e.total = 0 then 0
               else ((e.interview + e.offer + e.hired : Nat) : ℚ)
                  / (e.total : ℚ) * 100))
      ∧ List.Pairwise
          (fun a b => b.success_rate < a.success_rate ∨
            (a.success_rate = b.success_rate ∧ b.total ≤ a.total))
          (leaderboard_data db)
      ∧ (∀ db2 : DB, db = db2 → leaderboard_data db = leaderboard_data db2) := by
  refine ⟨?_, ?_, ?_⟩
  · intro e he
    rw [leaderboard_data, List.mem_insertionSort] at he
    rcases List.mem_map.mp he with ⟨r, _, hr⟩
    subst hr
    by_cases h : (CandidateModel.search db.candidates (recruiterFilter r.id)).length = 0
    · constructor
      · show (if 0 < (CandidateModel.search db.candidates (recruiterFilter r.id)).length
            then _ else (0 : ℚ)) = _
        simp [leaderboardEntry, h]
      · show (if 0 < (CandidateModel.search db.candidates (recruiterFilter r.id)).length
            then _ else (0 : ℚ)) = _
        simp [leaderboardEntry, h]
    · constructor
      · show (if 0 < (CandidateModel.search db.candidates (recruiterFilter r.id)).length
            then _ else (0 : ℚ)) = _
        simp [leaderboardEntry, h, Nat.pos_of_ne_zero h]
      · show (if 0 < (CandidateModel.search db.candidates (recruiterFilter r.id)).length
            then _ else (0 : ℚ)) = _
        simp [leaderboardEntry, h, Nat.pos_of_ne_zero h]
  · have hs := List.sorted_insertionSort leaderboardGE
      ((UserModel.get_recruiters db.users).map (leaderboardEntry db.candidates))
    exact hs.imp (fun hab => hab)
  · intro db2 hdb
    rw [hdb]

/-- Witness for C7: the concrete store has a leaderboard entry whose success
rate satisfies the stated formula. -/
theorem leaderboard_spec_witness :
    (leaderboardEntry exDB.candidates (stripHash uCarol)).success_rate
      = (if (leaderboardEntry exDB.candidates (stripHash uCarol)).total = 0 then 0
         else ((leaderboardEntry exDB.candidates (stripHash uCarol)).hired : ℚ)
            / ((leaderboardEntry exDB.candidates (stripHash uCarol)).total : ℚ) * 100) :=
  ((leaderboard_spec exDB).1 (leaderboardEntry exDB.candidates (stripHash uCarol))
    (by
      rw [show leaderboard_data exDB
          = [leaderboardEntry exDB.candidates (stripHash uCarol)] from rfl]
      exact List.mem_singleton_self _)).1

end RecruitCRM
